import Mathlib

/-!
Shallow embedding of `src/deepxcheck.py` (class `DeepXCheck`): an X-profile
risk evaluator with eight heuristic checks, a clamped score, and a
mode-dependent report.  Python dictionaries with optional keys are embedded
as structures of `Option` fields; `dict.get(k, default)` becomes
`Option.getD`.  Python integers are embedded as `Int`.  The single float
operation (`following / followers` compared with `10`, and its `:.1f`
rendering in a message) is embedded as exact rational arithmetic.
-/

namespace DeepXCheck

/-- ASCII view of Python's `\w` character class (`[a-zA-Z0-9_]`),
used by the two `re.sub` patterns in `_anonymize_profile`. -/
def wordChar (c : Char) : Bool :=
  (('a' ≤ c && c ≤ 'z') || ('A' ≤ c && c ≤ 'Z') || ('0' ≤ c && c ≤ '9') || c = '_')

/-- Split off the maximal leading run of word characters (`\w+` greedy match). -/
def takeWord : List Char → List Char × List Char
  | [] => ([], [])
  | c :: cs =>
      if wordChar c then
        let p := takeWord cs
        (c :: p.1, p.2)
      else ([], c :: cs)

theorem takeWord_snd_length (l : List Char) : (takeWord l).2.length ≤ l.length := by
  induction l with
  | nil => simp [takeWord]
  | cons c cs ih =>
      simp only [takeWord]
      split
      · simpa using Nat.le_succ_of_le ih
      · simp

/-- `re.sub(r'@\w+', '@[USER]', ·)` on a character list: leftmost,
non-overlapping, greedy matches of `@` followed by one or more word chars. -/
def subMention : List Char → List Char
  | [] => []
  | '@' :: c :: cs =>
      if wordChar c then
        "@[USER]".data ++ subMention (takeWord (c :: cs)).2
      else
        '@' :: subMention (c :: cs)
  | c :: cs => c :: subMention cs
termination_by l => l.length
decreasing_by
  · have h := takeWord_snd_length (c :: cs)
    simp only [List.length_cons] at h ⊢
    omega
  · simp
  · simp

/-- `re.sub(r't\.me/\w+', 't.me/[CHANNEL]', ·)` on a character list. -/
def subTme : List Char → List Char
  | 't' :: '.' :: 'm' :: 'e' :: '/' :: c :: cs =>
      if wordChar c then
        "t.me/[CHANNEL]".data ++ subTme (takeWord (c :: cs)).2
      else
        't' :: subTme ('.' :: 'm' :: 'e' :: '/' :: c :: cs)
  | c :: cs => c :: subTme cs
  | [] => []
termination_by l => l.length
decreasing_by
  · have h := takeWord_snd_length (c :: cs)
    simp only [List.length_cons] at h ⊢
    omega
  · simp
  · simp

/-- `re.sub(r'@\w+', '@[USER]', s)` at the string level. -/
def pySubMention (s : String) : String := ⟨subMention s.data⟩

/-- `re.sub(r't\.me/\w+', 't.me/[CHANNEL]', s)` at the string level. -/
def pySubTme (s : String) : String := ⟨subTme s.data⟩

/-- Python `str.lower()` (ASCII view, which covers every string the
source compares after lowering). -/
def pyLower (s : String) : String := ⟨s.data.map Char.toLower⟩

/-- `needle` is a prefix of `hay` (Boolean, character lists). -/
def isPrefixList : List Char → List Char → Bool
  | [], _ => true
  | _ :: _, [] => false
  | a :: as, b :: bs => a = b && isPrefixList as bs

/-- `needle` occurs as a contiguous run somewhere in `hay`. -/
def containsList (needle : List Char) : List Char → Bool
  | [] => isPrefixList needle []
  | c :: cs => isPrefixList needle (c :: cs) || containsList needle cs

/-- Python's substring test `needle in hay`. -/
def pyContains (needle hay : String) : Bool := containsList needle.data hay.data

/-- Python `str.title()` on ASCII text: a letter is uppercased when it does
not follow a letter, lowercased otherwise. -/
def titleAux : Bool → List Char → List Char
  | _, [] => []
  | prevAlpha, c :: cs =>
      if c.isAlpha then
        (if prevAlpha then c.toLower else c.toUpper) :: titleAux true cs
      else
        c :: titleAux false cs

/-- Python `str.title()` at the string level. -/
def pyTitle (s : String) : String := ⟨titleAux false s.data⟩

/-- Round `n / d` to the nearest integer, ties to even — how Python's
float formatting rounds `ratio` before printing one decimal digit. -/
def roundHalfEven (n d : Nat) : Nat :=
  let q := n / d
  let r := n % d
  if d < 2 * r then q + 1
  else if 2 * r < d then q
  else if q % 2 = 0 then q else q + 1

/-- Python's `f'{ratio:.1f}'` for `ratio = following / followers`, embedded
as exact rational rounding to one decimal digit (the source formats a float;
the values coincide wherever the double is exact). -/
def fmtRatio1 (following followers : Nat) : String :=
  let t := roundHalfEven (10 * following) followers
  toString (t / 10) ++ "." ++ toString (t % 10)

/-- Input profile record: a Python dict with optional keys
(`profile_data.get(key, default)` becomes `Option.getD`). -/
structure ProfileRecord where
  username : Option String := none
  display_name : Option String := none
  bio : Option String := none
  declared_location : Option String := none
  technical_location : Option String := none
  device : Option String := none
  join_date : Option String := none
  name_changes : Option Int := none
  last_name_change : Option String := none
  following : Option Int := none
  followers : Option Int := none
  shared_channels : Option (List String) := none
  like_fishing : Option Bool := none
deriving Repr, DecidableEq

/-- One red flag, as appended to `self.red_flags`. -/
structure RedFlag where
  type : String
  severity : String
  message : String
  score_impact : Int
deriving Repr, DecidableEq

/-- `_check_geo_inconsistency`: declared location hits a US indicator while
the technical location hits a Nigeria indicator; skipped when either field
is missing or empty (`if not declared or not tech_location: return`).
`device` is read by the source but never used. -/
def checkGeoInconsistency (r : ProfileRecord) : Option RedFlag :=
  let declared := pyLower (r.declared_location.getD "")
  let tech_location := pyLower (r.technical_location.getD "")
  if declared.data.isEmpty || tech_location.data.isEmpty then none
  else
    let us_indicators := ["usa", "united states", "new york", "california", "texas",
        "pennsylvania", "memphis", "boston", "ma", "pa", "tn"]
    let nigeria_indicators := ["nigeria", "ng", "lagos", "abuja", "ikeja"]
    let is_declared_us := us_indicators.any (fun i => pyContains i declared)
    let is_tech_nigeria := nigeria_indicators.any (fun i => pyContains i tech_location)
    if is_declared_us && is_tech_nigeria then
      some { type := "geo_inconsistency", severity := "high",
             message := "Declared location: " ++ pyTitle declared ++
               ", Technical location: " ++ pyTitle tech_location,
             score_impact := 3 }
    else none

/-- `_check_account_age`: join date mentions 2023/2024 and followers exceed
1000 (`current_year` is computed by the source but never used). -/
def checkAccountAge (r : ProfileRecord) : Option RedFlag :=
  let join_date := r.join_date.getD ""
  if pyContains "2024" join_date || pyContains "2023" join_date then
    let followers := r.followers.getD 0
    if followers > 1000 then
      some { type := "suspicious_growth", severity := "medium",
             message := "Recent account (" ++ join_date ++ ") with " ++
               toString followers ++ " followers",
             score_impact := 2 }
    else none
  else none

/-- `_check_name_changes`: three or more username changes. -/
def checkNameChanges (r : ProfileRecord) : Option RedFlag :=
  let name_changes := r.name_changes.getD 0
  let last_change := r.last_name_change.getD ""
  if name_changes ≥ 3 then
    some { type := "identity_instability", severity := "medium",
           message := toString name_changes ++ " username changes, last: " ++ last_change,
           score_impact := 2 }
  else none

/-- `_check_telegram_links`: the lowered bio contains one of four Telegram
patterns; the loop breaks after the first hit, so at most one flag. -/
def checkTelegramLinks (r : ProfileRecord) : Option RedFlag :=
  let bio := pyLower (r.bio.getD "")
  let telegram_patterns := ["t.me/", "telegram", "tg://", "joinchat/"]
  if telegram_patterns.any (fun p => pyContains p bio) then
    some { type := "telegram_promotion", severity := "medium",
           message := "Telegram link found in bio (common for coordinated groups)",
           score_impact := 2 }
  else none

/-- The fixed 16-term scam keyword list of `_check_suspicious_bio`. -/
def scam_keywords : List String :=
  ["blessed", "blessing", "cashapp", "paypal", "apple pay",
   "send me", "dm me", "instant money", "get paid",
   "nfa", "not financial advice", "alpha", "signal",
   "pump", "moon", "100x", "financial freedom"]

/-- `_check_suspicious_bio`: all matched keywords are aggregated into one
flag; impact 1 for fewer than 3 matches, else 2. -/
def checkSuspiciousBio (r : ProfileRecord) : Option RedFlag :=
  let bio := pyLower (r.bio.getD "")
  let found_keywords := scam_keywords.filter (fun k => pyContains k bio)
  if found_keywords.isEmpty then none
  else
    some { type := "suspicious_bio", severity := "medium",
           message := "Bio contains suspicious keywords: " ++
             String.intercalate ", " found_keywords,
           score_impact := if found_keywords.length < 3 then 1 else 2 }

/-- `_check_follow_ratio`: divides `following / followers` only under the
guard `followers > 0`; flags when the ratio exceeds 10.  For positive
`followers`, `following / followers > 10` is exactly `following > 10 * followers`. -/
def checkFollowRatio (r : ProfileRecord) : Option RedFlag :=
  let following := r.following.getD 0
  let followers := r.followers.getD 0
  if followers > 0 then
    if 10 * followers < following then
      some { type := "unbalanced_ratio", severity := "low",
             message := "Following " ++ toString following ++ " but only " ++
               toString followers ++ " followers (ratio: " ++
               fmtRatio1 following.toNat followers.toNat ++ ")",
             score_impact := 1 }
    else none
  else none

/-- `_check_coordination_patterns`: two or more shared channels. -/
def checkCoordinationPatterns (r : ProfileRecord) : Option RedFlag :=
  let shared_channels := r.shared_channels.getD []
  if shared_channels.length ≥ 2 then
    some { type := "coordinated_network", severity := "high",
           message := "Shares " ++ toString shared_channels.length ++
             " channels with other suspicious accounts",
           score_impact := 3 }
  else none

/-- `_check_like_behavior`: the `like_fishing` field is true. -/
def checkLikeBehavior (r : ProfileRecord) : Option RedFlag :=
  let like_fishing := r.like_fishing.getD false
  if like_fishing then
    some { type := "like_fishing", severity := "medium",
           message := "Uses likes to attract attention before DM scams",
           score_impact := 2 }
  else none

/-- The eight checks, run in the fixed order of `analyze_profile`, each
appending at most one flag to `self.red_flags`. -/
def runChecks (r : ProfileRecord) : List RedFlag :=
  (checkGeoInconsistency r).toList ++
  (checkAccountAge r).toList ++
  (checkNameChanges r).toList ++
  (checkTelegramLinks r).toList ++
  (checkSuspiciousBio r).toList ++
  (checkFollowRatio r).toList ++
  (checkCoordinationPatterns r).toList ++
  (checkLikeBehavior r).toList

/-- `_calculate_score`: sum of `score_impact` over the flags, clamped at
`max_score` (`min(base_score, self.max_score)`). -/
def calculateScore (flags : List RedFlag) (max_score : Int) : Int :=
  min (flags.foldl (fun acc f => acc + f.score_impact) 0) max_score

/-- `_get_risk_level`: score thresholds, highest first, inclusive. -/
def getRiskLevel (score : Int) : String :=
  if score ≥ 8 then "CRITICAL"
  else if score ≥ 6 then "HIGH"
  else if score ≥ 4 then "MEDIUM"
  else if score ≥ 2 then "LOW"
  else "MINIMAL"

/-- `_anonymize_profile` (discovery mode): username and display_name become
fixed placeholders when present; the bio keeps its shape but `@\w+` mentions
and `t.me/\w+` channel paths are substituted. -/
def anonymizeProfile (r : ProfileRecord) : ProfileRecord :=
  { r with
    username := r.username.map (fun _ => "@[REDACTED]"),
    display_name := r.display_name.map (fun _ => "[ANONYMIZED]"),
    bio := r.bio.map (fun b => pySubTme (pySubMention b)) }

/-- `_partial_anonymize` (investigation mode): only the username is touched,
and only when longer than 4 characters: first two, `"***"`, last two. -/
def partialAnonymize (r : ProfileRecord) : ProfileRecord :=
  { r with
    username := r.username.map (fun u =>
      if u.data.length > 4 then
        (⟨u.data.take 2⟩ : String) ++ "***" ++ (⟨u.data.drop (u.data.length - 2)⟩ : String)
      else u) }

/-- The multi-line expert-mode disclaimer string, byte-for-byte as in the
source (the source file carries mojibake codepoints for its emoji). -/
def expertDisclaimer : String :=
  "\n            ‚ö†Ô∏è EXPERT MODE - IDENTIFYING DATA VISIBLE\n            This report contains identifying information.\n            Public sharing may have legal and ethical consequences.\n            Use responsibly for documentation purposes only.\n            "

/-- The single-line disclaimer attached for every mode other than expert. -/
def educationalDisclaimer : String := "Educational analysis - patterns anonymized"

/-- The two fixed warning strings prepended when the score reaches 6. -/
def recWarnFinancial : String :=
  "‚ö†Ô∏è Avoid any financial interaction with this account"

def recWarnReport : String :=
  "üîç Report if promoting scams or manipulation"

/-- Per-flag-type recommendation strings. -/
def recGeo : String := "üåç Verify geographical claims before trust"

def recTelegram : String :=
  "üì¢ Be cautious of Telegram groups promising quick gains"

def recLikes : String :=
  "üëç Likes can be bait - check profile before engaging"

/-- The fallback recommendation when no rule produced a string. -/
def recNormal : String :=
  "‚úÖ Profile appears normal - maintain standard vigilance"

/-- `_generate_recommendations`: fixed priority order — the two score-≥-6
warnings, then one string per flag type present (geo, telegram, like-fishing),
then the fallback if nothing accumulated. -/
def generateRecommendations (score : Int) (red_flags : List RedFlag) : List String :=
  let recs : List String :=
    (if score ≥ 6 then [recWarnFinancial, recWarnReport] else []) ++
    (if red_flags.any (fun f => f.type = "geo_inconsistency") then [recGeo] else []) ++
    (if red_flags.any (fun f => f.type = "telegram_promotion") then [recTelegram] else []) ++
    (if red_flags.any (fun f => f.type = "like_fishing") then [recLikes] else [])
  if recs.length = 0 then [recNormal] else recs

/-- `report['meta']`. -/
structure ReportMeta where
  tool : String
  version : String
  mode : String
  analysis_date : String
  disclaimer : String
deriving Repr, DecidableEq

/-- `report['risk_assessment']`. -/
structure RiskAssessment where
  score : Int
  level : String
  red_flags_count : Nat
deriving Repr, DecidableEq

/-- The analysis report returned by `analyze_profile`. -/
structure Report where
  meta : ReportMeta
  risk_assessment : RiskAssessment
  profile : ProfileRecord
  red_flags : List RedFlag
  recommendations : List String
deriving Repr, DecidableEq

/-- The mutable instance state of a `DeepXCheck` object: fields set in
`__init__` plus the per-analysis accumulators. -/
structure DXState where
  version : String
  red_flags : List RedFlag
  score : Int
  max_score : Int
  analysis_date : String
  profile_data : ProfileRecord
  mode : String
deriving Repr, DecidableEq

/-- `__init__`: `analysis_date` is `datetime.now()` formatted — a value the
environment supplies, taken here as a parameter.  `profile_data` and `mode`
do not exist on the object before the first `analyze_profile` call; their
initial values below are irrelevant because `analyze_profile` assigns both
before any read. -/
def init (now : String) : DXState :=
  { version := "1.0", red_flags := [], score := 0, max_score := 10,
    analysis_date := now, profile_data := {}, mode := "discovery" }

/-- `_generate_report`: mode-dependent disclaimer and profile view, then the
assembled report structure. -/
def generateReport (s : DXState) : Report :=
  let disclaimer := if s.mode = "expert" then expertDisclaimer else educationalDisclaimer
  let profile_display :=
    if s.mode = "discovery" then anonymizeProfile s.profile_data
    else if s.mode = "investigation" then partialAnonymize s.profile_data
    else s.profile_data
  { meta := { tool := "DeepXCheck", version := s.version, mode := s.mode,
              analysis_date := s.analysis_date, disclaimer := disclaimer },
    risk_assessment := { score := s.score, level := getRiskLevel s.score,
                         red_flags_count := s.red_flags.length },
    profile := profile_display,
    red_flags := s.red_flags,
    recommendations := generateRecommendations s.score s.red_flags }

/-- `analyze_profile`: stores the record and mode, resets the accumulators,
runs the eight checks, computes the clamped score, and returns the report
together with the instance state it leaves behind. -/
def analyzeProfile (s : DXState) (profile_data : ProfileRecord)
    (mode : String) : Report × DXState :=
  let s₁ : DXState :=
    { s with profile_data := profile_data, mode := mode, red_flags := [], score := 0 }
  let s₂ : DXState := { s₁ with red_flags := runChecks profile_data }
  let s₃ : DXState := { s₂ with score := calculateScore s₂.red_flags s₂.max_score }
  (generateReport s₃, s₃)

/-- One analysis on a freshly constructed instance (the `__main__` usage
pattern); `now` is the construction-time clock reading. -/
def analyze (r : ProfileRecord) (mode : String) (now : String) : Report :=
  (analyzeProfile (init now) r mode).1

/-! ### Helper lemmas -/

theorem foldl_add_impacts (l : List RedFlag) (a : Int) :
    l.foldl (fun acc f => acc + f.score_impact) a = a + (l.map RedFlag.score_impact).sum := by
  induction l generalizing a with
  | nil => simp
  | cons f t ih => simp [ih, add_assoc]

theorem impact_pos_of_mem_runChecks (r : ProfileRecord) (f : RedFlag)
    (h : f ∈ runChecks r) : 1 ≤ f.score_impact := by
  simp only [runChecks, List.mem_append, Option.mem_toList, Option.mem_def,
    checkGeoInconsistency, checkAccountAge, checkNameChanges, checkTelegramLinks,
    checkSuspiciousBio, checkFollowRatio, checkCoordinationPatterns, checkLikeBehavior] at h
  rcases h with ((((((h | h) | h) | h) | h) | h) | h) | h <;>
    split_ifs at h <;>
    first
      | exact Option.noConfusion h
      | (injection h with h; subst h; norm_num)

theorem generateReport_red_flags (s : DXState) :
    (generateReport s).red_flags = s.red_flags := rfl

theorem generateReport_score (s : DXState) :
    (generateReport s).risk_assessment.score = s.score := rfl

theorem generateReport_recommendations (s : DXState) :
    (generateReport s).recommendations = generateRecommendations s.score s.red_flags := rfl

/-! ### Claim theorems -/

/-- C1: for every input record (and any mode and clock reading), the risk
score of the report equals the sum of the `score_impact` values of the
produced red flags clamped at 10, and it lies in the range `[0, 10]`. -/
theorem score_is_clamped_impact_sum (r : ProfileRecord) (mode now : String) :
    (analyze r mode now).risk_assessment.score =
      min (((analyze r mode now).red_flags.map RedFlag.score_impact).sum) 10 ∧
    0 ≤ (analyze r mode now).risk_assessment.score ∧
    (analyze r mode now).risk_assessment.score ≤ 10 := by
  have hs : (analyze r mode now).risk_assessment.score = calculateScore (runChecks r) 10 := rfl
  have hf : (analyze r mode now).red_flags = runChecks r := rfl
  have hsum : 0 ≤ ((runChecks r).map RedFlag.score_impact).sum := by
    apply List.sum_nonneg
    intro x hx
    simp only [List.mem_map] at hx
    obtain ⟨g, hg, rfl⟩ := hx
    exact le_trans (by norm_num) (impact_pos_of_mem_runChecks r g hg)
  refine ⟨?_, ?_, ?_⟩
  · rw [hs, hf, calculateScore, foldl_add_impacts]
    norm_num
  · rw [hs, calculateScore, foldl_add_impacts]
    simp only [zero_add]
    exact le_min hsum (by norm_num)
  · rw [hs, calculateScore]
    exact min_le_right _ _

/-- The scenario record of the spec (the `__main__` test profile without
the identifying fields the scenario leaves unspecified). -/
def scenarioRecord : ProfileRecord :=
  { declared_location := some "New York, USA",
    technical_location := some "Nigeria",
    join_date := some "November 2024",
    followers := some 100,
    following := some 10,
    bio := some "Follow me on t.me/test for signals!",
    shared_channels := some ["t.me/test"],
    like_fishing := some true }

/-- C2: on the scenario record, `analyze_profile` produces exactly the flags
geo_inconsistency (impact 3), telegram_promotion (impact 2), suspicious_bio
(impact 1, matching only the keyword "signal") and like_fishing (impact 2) —
no unbalanced-ratio and no coordinated-network flag — with total score 8 and
risk level CRITICAL, whatever the mode and clock reading. -/
theorem scenario_flags_score_level (mode now : String) :
    (analyze scenarioRecord mode now).red_flags =
      [{ type := "geo_inconsistency", severity := "high",
         message := "Declared location: New York, Usa, Technical location: Nigeria",
         score_impact := 3 },
       { type := "telegram_promotion", severity := "medium",
         message := "Telegram link found in bio (common for coordinated groups)",
         score_impact := 2 },
       { type := "suspicious_bio", severity := "medium",
         message := "Bio contains suspicious keywords: signal",
         score_impact := 1 },
       { type := "like_fishing", severity := "medium",
         message := "Uses likes to attract attention before DM scams",
         score_impact := 2 }] ∧
    (analyze scenarioRecord mode now).risk_assessment.score = 8 ∧
    (analyze scenarioRecord mode now).risk_assessment.level = "CRITICAL" := by
  exact ⟨rfl, rfl, rfl⟩

/-- Every string held by a profile view, to state that the view "contains"
a given string anywhere, in any field. -/
def profileStrings (v : ProfileRecord) : List String :=
  [v.username.getD "", v.display_name.getD "", v.bio.getD "",
   v.declared_location.getD "", v.technical_location.getD "", v.device.getD "",
   v.join_date.getD "", v.last_name_change.getD ""] ++ v.shared_channels.getD []

/-- The profile view contains `needle` as a substring of some field. -/
def viewContains (v : ProfileRecord) (needle : String) : Bool :=
  (profileStrings v).any (fun s => pyContains needle s)

/-- A record whose username reappears inside the redaction placeholder
itself (`"RED"` is a substring of `"@[REDACTED]"`) and whose display name
reappears inside the anonymization placeholder (`"ANON"` is a substring of
`"[ANONYMIZED]"`). -/
def leakRecord : ProfileRecord :=
  { username := some "RED", display_name := some "ANON" }

/-- C3 counterexample: for `leakRecord` the discovery-mode profile view
does contain the original username string and the original display_name
string, refuting the claim that it never does. -/
theorem discovery_view_leaks_username :
    leakRecord.username = some "RED" ∧
    leakRecord.display_name = some "ANON" ∧
    viewContains ((analyze leakRecord "discovery" "2025-01-01 00:00 UTC").profile) "RED" = true ∧
    viewContains ((analyze leakRecord "discovery" "2025-01-01 00:00 UTC").profile) "ANON" = true :=
  ⟨rfl, rfl, rfl, rfl⟩

/-- C3 amended: the discovery-mode profile view replaces the username field
(when present) with the fixed placeholder `"@[REDACTED]"` and the
display_name field with `"[ANONYMIZED]"`, scrubs `@`-mentions and `t.me/`
channel paths inside the bio, and leaves every other field unchanged — so
the original username or display_name may still occur inside other fields,
the residual bio text, or the placeholders themselves.  An expert-mode
report's profile view is the record itself, containing both verbatim. -/
theorem discovery_view_field_redaction (r : ProfileRecord) (now : String) :
    (analyze r "discovery" now).profile.username = r.username.map (fun _ => "@[REDACTED]") ∧
    (analyze r "discovery" now).profile.display_name = r.display_name.map (fun _ => "[ANONYMIZED]") ∧
    (analyze r "discovery" now).profile.bio = r.bio.map (fun b => pySubTme (pySubMention b)) ∧
    (analyze r "discovery" now).profile.declared_location = r.declared_location ∧
    (analyze r "discovery" now).profile.technical_location = r.technical_location ∧
    (analyze r "discovery" now).profile.device = r.device ∧
    (analyze r "discovery" now).profile.join_date = r.join_date ∧
    (analyze r "discovery" now).profile.name_changes = r.name_changes ∧
    (analyze r "discovery" now).profile.last_name_change = r.last_name_change ∧
    (analyze r "discovery" now).profile.following = r.following ∧
    (analyze r "discovery" now).profile.followers = r.followers ∧
    (analyze r "discovery" now).profile.shared_channels = r.shared_channels ∧
    (analyze r "discovery" now).profile.like_fishing = r.like_fishing ∧
    (analyze r "expert" now).profile = r :=
  ⟨rfl, rfl, rfl, rfl, rfl, rfl, rfl, rfl, rfl, rfl, rfl, rfl, rfl, rfl⟩

/-- C4: the unbalanced-ratio check divides only under its `followers > 0`
guard — zero followers produce `none`, never an error — and the flag fires
exactly when `followers > 0` and the exact ratio `following / followers`
exceeds 10. -/
theorem ratio_check_guard_and_condition (r : ProfileRecord) :
    ((checkFollowRatio r).isSome = true ↔
      0 < r.followers.getD 0 ∧
        (10 : ℚ) < ((r.following.getD 0 : ℤ) : ℚ) / ((r.followers.getD 0 : ℤ) : ℚ)) ∧
    (r.followers.getD 0 = 0 → checkFollowRatio r = none) := by
  constructor
  · simp only [checkFollowRatio]
    split_ifs with h1 h2
    · simp only [Option.isSome_some, true_iff]
      refine ⟨h1, ?_⟩
      rw [lt_div_iff₀ (by exact_mod_cast h1)]
      exact_mod_cast h2
    · simp only [Option.isSome_none, Bool.false_eq_true, false_iff, not_and]
      intro h1'
      rw [lt_div_iff₀ (by exact_mod_cast h1)]
      intro hlt
      exact h2 (by exact_mod_cast hlt)
    · simp only [Option.isSome_none, Bool.false_eq_true, false_iff, not_and]
      intro h1'
      exact absurd h1' h1
  · intro h
    simp [checkFollowRatio, h]

/-- C4 witness: a record with zero followers produces no ratio flag. -/
theorem ratio_check_guard_witness :
    checkFollowRatio { followers := some 0, following := some 1000 } = none :=
  (ratio_check_guard_and_condition { followers := some 0, following := some 1000 }).2 rfl

/-- C5: a single analysis run produces between 0 and 8 red flags (the lower
bound holds by the type), and each of the eight checks contributes at most
one flag — in particular the bio-keyword check yields a single aggregated
flag however many keywords matched. -/
theorem at_most_eight_flags (r : ProfileRecord) (mode now : String) :
    (analyze r mode now).red_flags.length ≤ 8 ∧
    (checkGeoInconsistency r).toList.length ≤ 1 ∧
    (checkAccountAge r).toList.length ≤ 1 ∧
    (checkNameChanges r).toList.length ≤ 1 ∧
    (checkTelegramLinks r).toList.length ≤ 1 ∧
    (checkSuspiciousBio r).toList.length ≤ 1 ∧
    (checkFollowRatio r).toList.length ≤ 1 ∧
    (checkCoordinationPatterns r).toList.length ≤ 1 ∧
    (checkLikeBehavior r).toList.length ≤ 1 := by
  have hopt : ∀ (o : Option RedFlag), o.toList.length ≤ 1 := by
    intro o; cases o <;> simp
  have hf : (analyze r mode now).red_flags = runChecks r := rfl
  refine ⟨?_, hopt _, hopt _, hopt _, hopt _, hopt _, hopt _, hopt _, hopt _⟩
  rw [hf]
  simp only [runChecks, List.length_append]
  have h1 := hopt (checkGeoInconsistency r)
  have h2 := hopt (checkAccountAge r)
  have h3 := hopt (checkNameChanges r)
  have h4 := hopt (checkTelegramLinks r)
  have h5 := hopt (checkSuspiciousBio r)
  have h6 := hopt (checkFollowRatio r)
  have h7 := hopt (checkCoordinationPatterns r)
  have h8 := hopt (checkLikeBehavior r)
  omega

/-- C6: in investigation mode a username of at most 4 characters passes
through unmasked, a username of 5 or more characters is shown as its first
two characters, the token `"***"`, and its last two characters, and every
other field of the profile view is kept verbatim. -/
theorem investigation_username_masking (r : ProfileRecord) (u now : String)
    (h : r.username = some u) :
    (u.data.length ≤ 4 → (analyze r "investigation" now).profile.username = some u) ∧
    (5 ≤ u.data.length →
      (analyze r "investigation" now).profile.username =
        some ((⟨u.data.take 2⟩ : String) ++ "***" ++
          (⟨u.data.drop (u.data.length - 2)⟩ : String))) ∧
    (analyze r "investigation" now).profile.display_name = r.display_name ∧
    (analyze r "investigation" now).profile.bio = r.bio ∧
    (analyze r "investigation" now).profile.declared_location = r.declared_location ∧
    (analyze r "investigation" now).profile.technical_location = r.technical_location ∧
    (analyze r "investigation" now).profile.device = r.device ∧
    (analyze r "investigation" now).profile.join_date = r.join_date ∧
    (analyze r "investigation" now).profile.name_changes = r.name_changes ∧
    (analyze r "investigation" now).profile.last_name_change = r.last_name_change ∧
    (analyze r "investigation" now).profile.following = r.following ∧
    (analyze r "investigation" now).profile.followers = r.followers ∧
    (analyze r "investigation" now).profile.shared_channels = r.shared_channels ∧
    (analyze r "investigation" now).profile.like_fishing = r.like_fishing := by
  have hp : (analyze r "investigation" now).profile = partialAnonymize r := rfl
  refine ⟨?_, ?_, rfl, rfl, rfl, rfl, rfl, rfl, rfl, rfl, rfl, rfl, rfl, rfl⟩
  · intro hle
    rw [hp]
    simp only [partialAnonymize, h, Option.map_some']
    rw [if_neg (by omega)]
  · intro hge
    rw [hp]
    simp only [partialAnonymize, h, Option.map_some']
    rw [if_pos (by omega)]

/-- C6 witness: a 6-character username is masked to first-two/`***`/last-two,
a 4-character username passes through unchanged. -/
theorem investigation_username_masking_witness :
    (analyze { username := some "abcdef" } "investigation" "T").profile.username =
      some "ab***ef" ∧
    (analyze { username := some "abcd" } "investigation" "T").profile.username =
      some "abcd" :=
  ⟨(investigation_username_masking { username := some "abcdef" } "abcdef" "T" rfl).2.1
      (by decide),
   (investigation_username_masking { username := some "abcd" } "abcd" "T" rfl).1
      (by decide)⟩

theorem perm_any_eq {α : Type} {l₁ l₂ : List α} (h : l₁.Perm l₂) (p : α → Bool) :
    l₁.any p = l₂.any p := by
  cases h1 : l₁.any p <;> cases h2 : l₂.any p
  · rfl
  · exfalso
    rw [List.any_eq_true] at h2
    obtain ⟨x, hx, hp⟩ := h2
    have h1' : l₁.any p = true := List.any_eq_true.mpr ⟨x, h.mem_iff.mpr hx, hp⟩
    rw [h1] at h1'
    exact Bool.noConfusion h1'
  · exfalso
    rw [List.any_eq_true] at h1
    obtain ⟨x, hx, hp⟩ := h1
    have h2' : l₂.any p = true := List.any_eq_true.mpr ⟨x, h.mem_iff.mp hx, hp⟩
    rw [h2] at h2'
    exact Bool.noConfusion h2'
  · rfl

/-- C7: the recommendations list follows a fixed priority: the two warning
strings when the clamped score reaches 6, then one fixed string for each of
the flag types geo_inconsistency, telegram_promotion and like_fishing that
is present, in that order; when these rules yield nothing, the list is
exactly the single "appears normal" string.  The outcome depends on the
flag list only through which types are present, not on detection order. -/
theorem recommendations_priority_order (r : ProfileRecord) (mode now : String) :
    ((analyze r mode now).recommendations =
      (let recs :=
        (if 6 ≤ (analyze r mode now).risk_assessment.score then
          [recWarnFinancial, recWarnReport] else []) ++
        (if (analyze r mode now).red_flags.any (fun f => f.type = "geo_inconsistency") then
          [recGeo] else []) ++
        (if (analyze r mode now).red_flags.any (fun f => f.type = "telegram_promotion") then
          [recTelegram] else []) ++
        (if (analyze r mode now).red_flags.any (fun f => f.type = "like_fishing") then
          [recLikes] else []);
      if recs = [] then [recNormal] else recs)) ∧
    (∀ flags' : List RedFlag, flags'.Perm ((analyze r mode now).red_flags) →
      generateRecommendations (analyze r mode now).risk_assessment.score flags' =
        (analyze r mode now).recommendations) := by
  have hrep : analyze r mode now = generateReport
      { version := "1.0", red_flags := runChecks r,
        score := calculateScore (runChecks r) 10, max_score := 10,
        analysis_date := now, profile_data := r, mode := mode } := rfl
  have hs : (analyze r mode now).risk_assessment.score = calculateScore (runChecks r) 10 := by
    rw [hrep, generateReport_score]
  have hf : (analyze r mode now).red_flags = runChecks r := by
    rw [hrep, generateReport_red_flags]
  have hrec : (analyze r mode now).recommendations =
      generateRecommendations (calculateScore (runChecks r) 10) (runChecks r) := by
    rw [hrep, generateReport_recommendations]
  constructor
  · rw [hrec, hs, hf]
    simp only [generateRecommendations, List.length_eq_zero, ge_iff_le]
  · intro flags' hperm
    rw [hf] at hperm
    rw [hrec, hs]
    simp only [generateRecommendations]
    rw [perm_any_eq hperm, perm_any_eq hperm, perm_any_eq hperm]

/-- A record firing exactly the telegram and like-fishing flags, used to
exercise order-independence of the recommendation rules. -/
def twoFlagRecord : ProfileRecord := { bio := some "telegram", like_fishing := some true }

/-- C7 witness: feeding the two detected flags in reversed order yields the
same recommendations list. -/
theorem recommendations_priority_witness :
    generateRecommendations
        (analyze twoFlagRecord "discovery" "T").risk_assessment.score
        ((analyze twoFlagRecord "discovery" "T").red_flags).reverse =
      (analyze twoFlagRecord "discovery" "T").recommendations :=
  (recommendations_priority_order twoFlagRecord "discovery" "T").2 _ (List.reverse_perm _)

/-- C8: analysing the same record and mode again — with any other analysis
on the same instance in between — returns an identical report (the
`analysis_date` is fixed at construction, so even the timestamp agrees, a
fortiori the reports agree outside the timestamp), because the flag list
and score accumulators are reset at the start of every call. -/
theorem rerun_report_identical (s : DXState) (r r' : ProfileRecord) (m m' : String) :
    (analyzeProfile (analyzeProfile s r' m').2 r m).1 = (analyzeProfile s r m).1 ∧
    (analyzeProfile s r m).2.red_flags = runChecks r ∧
    (analyzeProfile s r m).2.score = calculateScore (runChecks r) s.max_score :=
  ⟨rfl, rfl, rfl⟩

/-- The record with every optional key absent. -/
def emptyRecord : ProfileRecord := {}

/-- C9: absent fields default to empty/zero/false and the dependent checks
produce no flag — a missing or empty declared or technical location skips
the geo check entirely — and an analysis of the all-absent record completes,
yielding no flags and score 0. -/
theorem missing_fields_default_and_skip (r : ProfileRecord) (mode now : String) :
    ((r.declared_location = none ∨ r.declared_location = some "" ∨
      r.technical_location = none ∨ r.technical_location = some "") →
        checkGeoInconsistency r = none) ∧
    (r.join_date = none → checkAccountAge r = none) ∧
    (r.followers = none → checkAccountAge r = none) ∧
    (r.name_changes = none → checkNameChanges r = none) ∧
    (r.bio = none → checkTelegramLinks r = none ∧ checkSuspiciousBio r = none) ∧
    (r.following = none → checkFollowRatio r = none) ∧
    (r.followers = none → checkFollowRatio r = none) ∧
    (r.shared_channels = none → checkCoordinationPatterns r = none) ∧
    (r.like_fishing = none → checkLikeBehavior r = none) ∧
    (analyze emptyRecord mode now).red_flags = [] ∧
    (analyze emptyRecord mode now).risk_assessment.score = 0 := by
  refine ⟨?_, ?_, ?_, ?_, ?_, ?_, ?_, ?_, ?_, rfl, rfl⟩
  · intro h
    rcases h with h | h | h | h <;>
      simp [checkGeoInconsistency, h, pyLower]
  · intro h
    simp only [checkGeoInconsistency, checkAccountAge, h, Option.getD_none]
    rfl
  · intro h
    simp only [checkAccountAge, h, Option.getD_none]
    split <;> rfl
  · intro h
    simp only [checkNameChanges, h, Option.getD_none]
    rfl
  · intro h
    constructor
    · simp only [checkTelegramLinks, h, Option.getD_none]
      rfl
    · simp only [checkSuspiciousBio, h, Option.getD_none]
      rfl
  · intro h
    simp only [checkFollowRatio, h, Option.getD_none]
    split_ifs with h1 h2
    · omega
    · rfl
    · rfl
  · intro h
    simp only [checkFollowRatio, h, Option.getD_none]
    rfl
  · intro h
    simp only [checkCoordinationPatterns, h, Option.getD_none]
    rfl
  · intro h
    simp only [checkLikeBehavior, h, Option.getD_none]
    rfl

/-- C9 witness: the checks produce no flag on the all-absent record. -/
theorem missing_fields_default_witness :
    checkGeoInconsistency emptyRecord = none ∧
    checkTelegramLinks emptyRecord = none ∧
    checkSuspiciousBio emptyRecord = none ∧
    checkFollowRatio emptyRecord = none ∧
    checkLikeBehavior emptyRecord = none :=
  ⟨(missing_fields_default_and_skip emptyRecord "discovery" "T").1 (Or.inl rfl),
   ((missing_fields_default_and_skip emptyRecord "discovery" "T").2.2.2.2.1 rfl).1,
   ((missing_fields_default_and_skip emptyRecord "discovery" "T").2.2.2.2.1 rfl).2,
   (missing_fields_default_and_skip emptyRecord "discovery" "T").2.2.2.2.2.1 rfl,
   (missing_fields_default_and_skip emptyRecord "discovery" "T").2.2.2.2.2.2.2.2.1 rfl⟩

/-- C10: any mode string other than "discovery" and "investigation" gets the
full, unredacted record as profile view, exactly as expert mode does, while
the extended expert disclaimer is attached only when the mode is exactly
"expert"; every other mode gets the single-line educational disclaimer. -/
theorem unknown_mode_full_profile (r : ProfileRecord) (m now : String) :
    (m ≠ "discovery" → m ≠ "investigation" → (analyze r m now).profile = r) ∧
    (m = "expert" → (analyze r m now).meta.disclaimer = expertDisclaimer) ∧
    (m ≠ "expert" → (analyze r m now).meta.disclaimer = educationalDisclaimer) := by
  refine ⟨?_, ?_, ?_⟩
  · intro h1 h2
    simp [analyze, analyzeProfile, generateReport, h1, h2]
  · intro h
    subst h
    rfl
  · intro h
    simp [analyze, analyzeProfile, generateReport, h]

/-- C10 witness: the unknown mode "bogus" exposes the full record and gets
the educational disclaimer, while "expert" gets the extended disclaimer. -/
theorem unknown_mode_full_profile_witness :
    (analyze emptyRecord "bogus" "T").profile = emptyRecord ∧
    (analyze emptyRecord "bogus" "T").meta.disclaimer = educationalDisclaimer ∧
    (analyze emptyRecord "expert" "T").meta.disclaimer = expertDisclaimer :=
  ⟨(unknown_mode_full_profile emptyRecord "bogus" "T").1 (by decide) (by decide),
   (unknown_mode_full_profile emptyRecord "bogus" "T").2.2 (by decide),
   (unknown_mode_full_profile emptyRecord "expert" "T").2.1 rfl⟩

end DeepXCheck
